import Mathlib

/-!
Shallow embedding of src/tion_btle/tion.py (the tion BLE driver core) and
verification of its specified properties.

Python integers are modelled as Int (or Nat for byte values), bytearrays as
List Nat, exceptions as Option/Except, and the BLE transport (BleakClient)
as an explicit trace of calls issued to it.
-/

namespace TionBtle

/-! ## NotificationSink (class TionDelegation) -/

/-- State of a TionDelegation: the dirty flag `_have_new_data` and the
buffered payload `_data` (a bytearray, modelled as a list of byte values). -/
structure TionDelegation where
  have_new_data : Bool
  data : List Nat
deriving Repr, DecidableEq

/-- TionDelegation.__init__: `_have_new_data = False`, `_data = bytearray()`. -/
def TionDelegation.init : TionDelegation := ⟨false, []⟩

/-- TionDelegation.handleNotification: overwrites `_data` with the payload and
sets `_have_new_data = True` (the handle argument only feeds a debug log). -/
def handleNotification (_s : TionDelegation) (_handle : Nat) (d : List Nat) :
    TionDelegation :=
  ⟨true, d⟩

/-- The `data` property getter: sets `_have_new_data = False` and returns
`_data` without clearing it; modelled as returning the bytes and the new
state. -/
def takeData (s : TionDelegation) : List Nat × TionDelegation :=
  (s.data, ⟨false, s.data⟩)

/-! ## Temperature decoding (tion.decode_temperature) -/

/-- tion.decode_temperature. For `raw < 128` it returns `raw`. In the else
branch the source computes `-(~(result - barrier) + barrier + 1)`, reading
the local variable `result` before any assignment to it, so Python raises
UnboundLocalError; that branch is modelled as `none`. -/
def decode_temperature (raw : Nat) : Option Int :=
  if raw < 128 then some (raw : Int) else none

/-- Modelled from the spec: the corrected else-branch formula of section 4.5,
`-(~(raw - barrier) + barrier + 1)` with Python bitwise complement
`~x = -x - 1`, for comparison with the two-complement reading `raw - 256`. -/
def decode_temperature_spec (raw : Nat) : Int :=
  if raw < 128 then (raw : Int)
  else -((-(((raw : Int) - 128)) - 1) + 128 + 1)

/-! ## Status labels (tion.statuses, tion._process_status) -/

/-- The class attribute `statuses`. -/
def statuses : List String := ["off", "on"]

/-- Python list subscript `l[i]`: a nonnegative index reads position `i`
(IndexError when `i >= len(l)`, modelled as `none`); a negative index reads
position `i + len(l)` (IndexError when that is still negative). -/
def pyIndex (l : List String) (i : Int) : Option String :=
  if 0 ≤ i then l.get? i.toNat
  else if 0 ≤ i + l.length then l.get? (i + l.length).toNat
  else none

/-- tion._process_status: `statuses[code]`, with IndexError mapped to
"unknown" by the try/except. -/
def process_status (code : Int) : String :=
  (pyIndex statuses code).getD "unknown"

/-! ## Transport calls and the dummy sentinel -/

/-- A call issued to the BleakClient transport. -/
inductive BtleCall
  | isConnected
  | connect
  | disconnect
  | writeGattChar (uuid : String) (request : List Nat) (withResponse : Bool)
deriving Repr, DecidableEq

/-- tion.connection_status: queries the transport and maps the boolean to
"connected" or "disc". Returns the call trace alongside the value. -/
def connection_status (connected : Bool) : List BtleCall × String :=
  ([BtleCall.isConnected], if connected then "connected" else "disc")

/-- tion._connect: immediate return for the "dummy" address; otherwise it
reads connection_status and, when disconnected, calls the transport connect,
propagating a BleakError (after a 2 second sleep) when the transport fails.
`connected` is the transport connection state and `connectOk` whether the
transport connect call succeeds. -/
def tion_connect (mac : String) (connected : Bool) (connectOk : Bool) :
    List BtleCall × Except String Unit :=
  if mac = "dummy" then ([], Except.ok ())
  else if connected then ([BtleCall.isConnected], Except.ok ())
  else if connectOk then ([BtleCall.isConnected, BtleCall.connect], Except.ok ())
  else ([BtleCall.isConnected, BtleCall.connect], Except.error "BleakError")

/-- tion._disconnect: always reads connection_status first; only when the
status is not "disc" and the address is not "dummy" does it call the
transport disconnect. -/
def tion_disconnect (mac : String) (connected : Bool) : List BtleCall :=
  BtleCall.isConnected :: (if connected ∧ mac ≠ "dummy" then [BtleCall.disconnect] else [])

/-- tion._try_write: for a non-dummy address writes the request to the write
characteristic without response and returns the transport result `wres`; for
the dummy address touches nothing and returns "dummy write". -/
def tion_try_write (mac : String) (uuid_write : String) (request : List Nat)
    (wres : String) : List BtleCall × String :=
  if mac ≠ "dummy" then ([BtleCall.writeGattChar uuid_write request false], wres)
  else ([], "dummy write")

/-! ## Retry wrapper (tion._do_action) -/

/-- The message selection of tion._do_action after max_tries exhausted,
branching on `action.__name__`. The source compares against the literals
"_connect", "__try_write" and "__try_get_state" (the latter two with a
doubled leading underscore). `requestHex` stands for kwargs["request"].hex(). -/
def doActionMessage (name mac requestHex : String) : String :=
  if name = "_connect" then "Could not connect to " ++ mac
  else if name = "__try_write" then "Could not write request + " ++ requestHex
  else if name = "__try_get_state" then "Could not get updated state"
  else "Could not do " ++ name

/-- One loop pass of tion._do_action starting at attempt index `i` with
`remaining` iterations left. `attempts i` is the outcome of the try block of
attempt `i` (the `_connect` precall followed by the action; any exception
from either is the error case). Returns the successful response when one
attempt succeeds, together with the number of logged warnings (one per
failed attempt) and the number of try-block executions. -/
def doActionAux {α : Type} (attempts : Nat → Except String α) :
    Nat → Nat → Option α × Nat × Nat
  | _, 0 => (none, 0, 0)
  | i, r + 1 =>
    match attempts i with
    | Except.ok a => (some a, 0, 1)
    | Except.error _ =>
      let (res, w, x) := doActionAux attempts (i + 1) r
      (res, w + 1, x + 1)

/-- tion._do_action: runs the while loop (`tries < max_tries`, so a
non-positive `max_tries` runs no iterations) and, when no attempt succeeded,
raises TionException carrying the action name and the selected message.
Returns the outcome with the warning count and the try-block execution
count. -/
def do_action {α : Type} (name mac requestHex : String)
    (attempts : Nat → Except String α) (max_tries : Int) :
    Except (String × String) α × Nat × Nat :=
  match doActionAux attempts 0 max_tries.toNat with
  | (some a, w, x) => (Except.ok a, w, x)
  | (none, w, x) => (Except.error (name, doActionMessage name mac requestHex), w, x)

/-! ## Fan speed (tion.fan_speed setter, tion.__init__) -/

/-- The fan_speed setter: stores the new speed when it lies in [0, 6],
otherwise stores 1 with a warning. -/
def fan_speed_set (new_speed : Int) : Int :=
  if 0 ≤ new_speed ∧ new_speed ≤ 6 then new_speed else 1

/-- tion.__init__ sets `_fan_speed = 0`. -/
def init_fan_speed : Int := 0

/-- The stored fan speed after a sequence of setter assignments applied to a
freshly constructed driver. -/
def fan_speed_after (l : List Int) : Int :=
  l.foldl (fun _ s => fan_speed_set s) init_fan_speed

/-! ## Theorems -/

/-- C1: the claim states that for raw in [128, 255] decode_temperature
returns raw - 256. The source instead reads the unassigned local `result`
in that branch and raises UnboundLocalError (modelled as `none`), while the
corrected section 4.5 formula does give raw - 256. Evaluated at the failing
inputs 128, 200 and 255. -/
theorem decode_temperature_negative_branch_raises :
    decode_temperature 128 = none ∧ decode_temperature 200 = none ∧
    decode_temperature 255 = none ∧
    decode_temperature_spec 128 = 128 - 256 ∧
    decode_temperature_spec 200 = 200 - 256 ∧
    decode_temperature_spec 255 = 255 - 256 := by
  decide

/-- C2 counterexample: the claim states that every negative code maps to
"unknown", but Python negative indexing makes statuses[-1] the last label,
so process_status (-1) is "on". -/
theorem process_status_neg_one_is_on :
    process_status (-1) = "on" ∧ process_status (-1) ≠ "unknown" := by
  constructor <;> decide

/-- C2 amended: codes 0 and 1 return the label at that index; the negative
codes -1 and -2 wrap around per Python indexing and return "on" and "off";
every other code returns "unknown". -/
theorem process_status_characterization :
    ∀ code : Int,
      process_status code =
        if code = 0 ∨ code = -2 then "off"
        else if code = 1 ∨ code = -1 then "on"
        else "unknown" := by
  intro code
  by_cases h0 : code = 0
  · subst h0; decide
  by_cases h1 : code = 1
  · subst h1; decide
  by_cases h2 : code = -1
  · subst h2; decide
  by_cases h3 : code = -2
  · subst h3; decide
  rw [if_neg (by push_neg; exact ⟨h0, h3⟩), if_neg (by push_neg; exact ⟨h1, h2⟩)]
  unfold process_status pyIndex
  by_cases hpos : 0 ≤ code
  · rw [if_pos hpos]
    have hnone : statuses.get? code.toNat = none := by
      apply List.get?_eq_none.mpr
      have hlen : statuses.length = 2 := rfl
      rw [hlen]
      omega
    rw [hnone]
    rfl
  · rw [if_neg hpos]
    have hneg : ¬(0 ≤ code + (statuses.length : Nat)) := by
      have hlen : statuses.length = 2 := rfl
      rw [hlen]
      push_cast
      omega
    rw [if_neg hneg]
    rfl

/-- C3 counterexample: the claim states that with the dummy address
disconnect performs no transport calls at all, but tion._disconnect reads
connection_status (an is_connected query on the transport) before its dummy
check. -/
theorem dummy_disconnect_queries_transport :
    tion_disconnect "dummy" true = [BtleCall.isConnected] ∧
    tion_disconnect "dummy" true ≠ ([] : List BtleCall) := by
  constructor <;> decide

/-- C3 amended: with the dummy address, connect and write perform no
transport calls and return deterministic dummy results, and disconnect
performs exactly one transport call, the is_connected query, never the
transport disconnect. -/
theorem dummy_ops_no_transport_effects :
    ∀ (connected connectOk : Bool) (uuid : String) (request : List Nat)
      (wres : String),
      tion_connect "dummy" connected connectOk = ([], Except.ok ()) ∧
      tion_try_write "dummy" uuid request wres = ([], "dummy write") ∧
      tion_disconnect "dummy" connected = [BtleCall.isConnected] := by
  intro connected connectOk uuid request wres
  refine ⟨by simp [tion_connect], by simp [tion_try_write], by simp [tion_disconnect]⟩

/-- C4: the claim states that exhausting the write action yields the message
"could not write request <hex>". The source compares action.__name__ against
the literal "__try_write", which never equals the actual method name
"_try_write", so the write action falls through to the generic message, as
the full retry run with three failing attempts shows. -/
theorem do_action_write_message_is_generic :
    doActionMessage "_try_write" "AA:BB:CC:DD:EE:FF" "0102" =
      "Could not do _try_write" ∧
    doActionMessage "_try_write" "AA:BB:CC:DD:EE:FF" "0102" ≠
      "Could not write request + 0102" ∧
    do_action "_try_write" "AA:BB:CC:DD:EE:FF" "0102"
        (fun _ => (Except.error "boom" : Except String Unit)) 3 =
      (Except.error ("_try_write", "Could not do _try_write"), 3, 3) := by
  refine ⟨by decide, by decide, rfl⟩

/-- C5: under the default 3 attempts, an action failing on the first two
attempts and succeeding on the third returns the success value with exactly
2 logged warnings; an action failing on all 3 attempts ends in a
TionException built from the action name. -/
theorem do_action_retry_semantics {α : Type} (name mac requestHex : String)
    (attempts : Nat → Except String α) (v : α) (e0 e1 : String)
    (h0 : attempts 0 = Except.error e0) (h1 : attempts 1 = Except.error e1) :
    (attempts 2 = Except.ok v →
      do_action name mac requestHex attempts 3 = (Except.ok v, 2, 3)) ∧
    (∀ e2, attempts 2 = Except.error e2 →
      do_action name mac requestHex attempts 3 =
        (Except.error (name, doActionMessage name mac requestHex), 3, 3)) := by
  constructor
  · intro h2
    simp [do_action, doActionAux, h0, h1, h2]
  · intro e2 h2
    simp [do_action, doActionAux, h0, h1, h2]

/-- Witness for the retry semantics at concrete attempt outcomes: two
failures then success returns the value with 2 warnings, and three failures
end in the generic TionException. -/
theorem do_action_retry_semantics_witness :
    do_action "a" "m" "00"
        (fun i => if i < 2 then Except.error "e" else Except.ok 7) 3 =
      (Except.ok 7, 2, 3) ∧
    do_action "a" "m" "00" (fun _ => (Except.error "e" : Except String Nat)) 3 =
      (Except.error ("a", "Could not do a"), 3, 3) := by
  constructor
  · exact (do_action_retry_semantics "a" "m" "00"
      (fun i => if i < 2 then Except.error "e" else Except.ok 7)
      7 "e" "e" rfl rfl).1 rfl
  · exact (do_action_retry_semantics "a" "m" "00"
      (fun _ => (Except.error "e" : Except String Nat))
      7 "e" "e" rfl rfl).2 "e" rfl

/-- Helper: the fan_speed setter always stores a value in [0, 6]. -/
theorem fan_speed_set_bounds (s : Int) :
    0 ≤ fan_speed_set s ∧ fan_speed_set s ≤ 6 := by
  unfold fan_speed_set
  split <;> omega

/-- Helper: folding the setter over any assignment sequence keeps the stored
speed in [0, 6] whenever the starting value is. -/
theorem fan_speed_foldl_bounds (l : List Int) :
    ∀ a : Int, 0 ≤ a → a ≤ 6 →
      0 ≤ l.foldl (fun _ s => fan_speed_set s) a ∧
      l.foldl (fun _ s => fan_speed_set s) a ≤ 6 := by
  induction l with
  | nil => intro a ha hb; exact ⟨ha, hb⟩
  | cons x xs ih =>
    intro a ha hb
    simp only [List.foldl_cons]
    exact ih (fan_speed_set x) (fan_speed_set_bounds x).1 (fan_speed_set_bounds x).2

/-- C6: assigning a speed in [0, 6] stores it unchanged, assigning any speed
outside [0, 6] stores 1, construction starts at 0, and after any sequence of
assignment attempts the stored speed lies in [0, 6]. -/
theorem fan_speed_clamp_and_invariant :
    (∀ s : Int, (0 ≤ s ∧ s ≤ 6 → fan_speed_set s = s) ∧
       (s < 0 ∨ 6 < s → fan_speed_set s = 1)) ∧
    init_fan_speed = 0 ∧
    (∀ l : List Int, 0 ≤ fan_speed_after l ∧ fan_speed_after l ≤ 6) := by
  refine ⟨?_, rfl, ?_⟩
  · intro s
    constructor
    · intro h
      unfold fan_speed_set
      rw [if_pos h]
    · intro h
      unfold fan_speed_set
      rw [if_neg (by omega)]
  · intro l
    exact fan_speed_foldl_bounds l init_fan_speed (by decide) (by decide)

/-- Witness for the fan speed claim at concrete speeds: 4 is stored as is,
9 and -3 are clamped to 1, and a concrete assignment sequence ends in
range. -/
theorem fan_speed_clamp_and_invariant_witness :
    fan_speed_set 4 = 4 ∧ fan_speed_set 9 = 1 ∧ fan_speed_set (-3) = 1 ∧
    (0 ≤ fan_speed_after [10, -3, 4] ∧ fan_speed_after [10, -3, 4] ≤ 6) :=
  ⟨(fan_speed_clamp_and_invariant.1 4).1 (by decide),
   (fan_speed_clamp_and_invariant.1 9).2 (by decide),
   (fan_speed_clamp_and_invariant.1 (-3)).2 (by decide),
   fan_speed_clamp_and_invariant.2.2 [10, -3, 4]⟩

/-- C7: after a notification with payload d, have_new_data is true; the
first takeData returns d, clears the flag and keeps the buffer; a second
takeData returns the same bytes and leaves the state unchanged. -/
theorem delegation_notify_take_take :
    ∀ (s : TionDelegation) (h : Nat) (d : List Nat),
      (handleNotification s h d).have_new_data = true ∧
      (takeData (handleNotification s h d)).1 = d ∧
      (takeData (handleNotification s h d)).2.have_new_data = false ∧
      (takeData (handleNotification s h d)).2.data = d ∧
      takeData ((takeData (handleNotification s h d)).2) =
        (d, (takeData (handleNotification s h d)).2) := by
  intro s h d
  exact ⟨rfl, rfl, rfl, rfl, rfl⟩

/-- C8: for every raw byte below the 128 barrier, decode_temperature returns
the raw value itself. -/
theorem decode_temperature_nonneg (r : Nat) (h : r ≤ 127) :
    decode_temperature r = some (r : Int) := by
  unfold decode_temperature
  rw [if_pos (by omega)]

/-- Witness for the nonnegative decode at the concrete byte 25. -/
theorem decode_temperature_nonneg_witness :
    (25 : Nat) ≤ 127 ∧ decode_temperature 25 = some 25 :=
  ⟨by decide, decode_temperature_nonneg 25 (by decide)⟩

/-- C9: with a non-positive max_tries the while loop body never runs, so the
action and the connect precall are executed zero times and a TionException
with the selected message is raised at once. -/
theorem do_action_nonpositive_tries {α : Type} (name mac requestHex : String)
    (attempts : Nat → Except String α) (m : Int) (hm : m ≤ 0) :
    do_action name mac requestHex attempts m =
      (Except.error (name, doActionMessage name mac requestHex), 0, 0) := by
  unfold do_action
  rw [Int.toNat_of_nonpos hm]
  rfl

/-- Witness for the non-positive max_tries case at max_tries = 0 with an
always-succeeding action: the action is still never executed. -/
theorem do_action_nonpositive_tries_witness :
    (0 : Int) ≤ 0 ∧
    do_action "x" "m" "00" (fun _ => (Except.ok 1 : Except String Nat)) 0 =
      (Except.error ("x", "Could not do x"), 0, 0) :=
  ⟨by decide,
   do_action_nonpositive_tries "x" "m" "00"
     (fun _ => (Except.ok 1 : Except String Nat)) 0 (by decide)⟩

/-- C10: a freshly constructed TionDelegation has have_new_data false and
takeData on it returns the empty byte sequence. -/
theorem delegation_initial_state :
    TionDelegation.init.have_new_data = false ∧
    (takeData TionDelegation.init).1 = [] :=
  ⟨rfl, rfl⟩

end TionBtle
